import Mathlib

/-!
Verification development for the job_scraper repository (src/server).

The Python sources are shallowly embedded:
* JSON-like Python values (the raw listing dictionaries fed to the parsers)
  are the inductive type `JVal`; Python truthiness, `dict.get`, `or`-chains,
  `str(...)` and iteration are modelled by `truthy`, `jvGet`/`jvGetD`,
  `pyOr`, `pyStr` and `pyIter`.
* Python statements that can raise are modelled in `Except Unit`; a
  `try/except` block in the source corresponds to catching that layer.
* Network fetches are an oracle: a crawl consumes a list of `FetchOutcome`
  values (one per HTTP request); an exhausted oracle behaves like a
  transport failure.
* Wall-clock dependent fields (date parsing via datetime.now / strptime)
  are outside every verified property and are omitted from the embedded
  records; each omission is noted at the definition it concerns.
-/

/-- Python/JSON values as seen by the scrapers' parsing code. -/
inductive JVal where
  | null : JVal
  | bool : Bool → JVal
  | num : Int → JVal
  | str : String → JVal
  | arr : List JVal → JVal
  | obj : List (String × JVal) → JVal
deriving Repr, BEq, Inhabited

/-- Python truthiness of a value. -/
def truthy : JVal → Bool
  | .null => false
  | .bool b => b
  | .num n => n != 0
  | .str s => s != ""
  | .arr xs => !xs.isEmpty
  | .obj kvs => !kvs.isEmpty

/-- First binding of a key in an object's association list. -/
def jvLookup (kvs : List (String × JVal)) (k : String) : Option JVal :=
  (kvs.find? (fun kv => kv.1 == k)).map (fun kv => kv.2)

/-- Models `x.get(k)` (default `None`); raises (AttributeError) when `x`
is not a dict. -/
def jvGet : JVal → String → Except Unit JVal
  | .obj kvs, k => .ok ((jvLookup kvs k).getD .null)
  | _, _ => .error ()

/-- Models `x.get(k, d)`; raises when `x` is not a dict. -/
def jvGetD : JVal → String → JVal → Except Unit JVal
  | .obj kvs, k, d => .ok ((jvLookup kvs k).getD d)
  | _, _, _ => .error ()

/-- Models `x[k]` on a dict; raises on a missing key or non-dict. -/
def jvItem : JVal → String → Except Unit JVal
  | .obj kvs, k =>
    match jvLookup kvs k with
    | some v => .ok v
    | none => .error ()
  | _, _ => .error ()

/-- Python `a or b` (both operands already evaluated). -/
def pyOr (a b : JVal) : JVal := if truthy a then a else b

/-- Python `str(...)` on scalar values.  Containers are rendered with a
placeholder: no embedded code path applies `str` to a container. -/
def pyStr : JVal → String
  | .null => "None"
  | .bool true => "True"
  | .bool false => "False"
  | .num n => toString n
  | .str s => s
  | .arr _ => "<list>"
  | .obj _ => "<dict>"

/-- Python iteration (`for x in v`): lists yield elements, dicts yield their
keys, strings yield 1-character strings; other values raise TypeError. -/
def pyIter : JVal → Except Unit (List JVal)
  | .arr xs => .ok xs
  | .obj kvs => .ok (kvs.map (fun kv => .str kv.1))
  | .str s => .ok (s.toList.map (fun c => .str (String.mk [c])))
  | _ => .error ()

/-- Substring scan: does `n` occur contiguously in the character list? -/
def listInfix (n : List Char) : List Char → Bool
  | [] => n.isEmpty
  | c :: rest => n.isPrefixOf (c :: rest) || listInfix n rest

/-- Python `needle in hay` for strings (substring test). -/
def strIn (needle hay : String) : Bool :=
  listInfix needle.toList hay.toList

/-- Python `s.lower()` (character-list implementation). -/
def strLower (s : String) : String :=
  String.mk (s.toList.map Char.toLower)

/-- Python `s.upper()` (character-list implementation). -/
def strUpper (s : String) : String :=
  String.mk (s.toList.map Char.toUpper)

/-- Python `s.startswith(pre)` (character-list implementation). -/
def strStarts (s pre : String) : Bool :=
  pre.toList.isPrefixOf s.toList

/-- Python `s.split(sep)` for a one-character separator. -/
def splitOnChar (c : Char) : List Char → List (List Char)
  | [] => [[]]
  | x :: rest =>
    let r := splitOnChar c rest
    if x == c then [] :: r
    else
      match r with
      | h :: t => (x :: h) :: t
      | [] => [[x]]

/-- Python `s.split(sep)` for a one-character separator, on strings. -/
def strSplitChar (c : Char) (s : String) : List String :=
  (splitOnChar c s.toList).map String.mk

/-- Split a list of characters (least-significant first) into groups of 3,
used for the thousands separators of Python's format spec. -/
def chunks3 : List Char → List (List Char)
  | a :: b :: c :: rest => [a, b, c] :: chunks3 rest
  | [] => []
  | l => [l]

/-- Python `f-string` formatting with the comma option on a natural number:
thousands separators every three digits. -/
def commaNat (n : Nat) : String :=
  String.mk ((List.intercalate [','] (chunks3 (toString n).toList.reverse)).reverse)

/-- Comma formatting of an integer (sign, then grouped magnitude). -/
def commaInt (i : Int) : String :=
  if i < 0 then "-" ++ commaNat i.natAbs else commaNat i.natAbs

/-- Comma-format a Python value; raises (ValueError/TypeError) when the
value is not a number, exactly as the comma format spec does. -/
def fmtComma : JVal → Except Unit String
  | .num n => .ok (commaInt n)
  | _ => .error ()

/-- Python `", ".join(parts)`: raises unless every part is a string. -/
def pyJoin (sep : String) : List JVal → Except Unit String
  | parts => do
    let strs ← parts.mapM (fun p =>
      match p with
      | .str s => Except.ok s
      | _ => Except.error ())
    pure (String.intercalate sep strs)

/-- Truthiness of an optional string, as Python sees the corresponding
`None`-or-string variable. -/
def strOptTruthy : Option String → Bool
  | none => false
  | some s => s != ""

/-- Python `v is None`. -/
def isNull : JVal → Bool
  | .null => true
  | _ => false

/-! ## Glints scraper (src/server/glints-scraper.py) -/

/-- Embedded `GlintsJob` dataclass.  Fields that Python leaves untyped are
carried as `JVal`. -/
structure GlintsJob where
  id : String
  title : JVal
  company : JVal
  company_url : Option String
  location : JVal
  salary : Option String
  date_posted : JVal
  job_url : String
  description : JVal
  job_type : String
  search_keywords : Option String
deriving Repr, BEq

/-- `GlintsScraper._map_work_arrangement`: falsy input defaults to
"onsite"; `.upper()` on a non-string raises. -/
def map_work_arrangement (work_arrangement : JVal) : Except Unit String :=
  if !truthy work_arrangement then .ok "onsite"
  else
    match work_arrangement with
    | .str s =>
      let u := strUpper s
      if u == "REMOTE" then .ok "remote"
      else if u == "HYBRID" then .ok "hybrid"
      else if u == "ONSITE" then .ok "onsite"
      else .ok "onsite"
    | _ => .error ()

/-- `GlintsScraper._format_salary`: presence of min/max is tested by
truthiness; the comma format spec raises on non-numeric amounts. -/
def format_salary (salary_min salary_max currency : JVal) : Except Unit (Option String) := do
  if !truthy salary_min && !truthy salary_max then
    return none
  let cur := pyOr currency (.str "IDR")
  if truthy salary_min && truthy salary_max then
    let lo ← fmtComma salary_min
    let hi ← fmtComma salary_max
    return some (pyStr cur ++ " " ++ lo ++ " - " ++ hi)
  else if truthy salary_min then
    let lo ← fmtComma salary_min
    return some (pyStr cur ++ " " ++ lo ++ "+")
  else if truthy salary_max then
    let hi ← fmtComma salary_max
    return some (pyStr cur ++ " up to " ++ hi)
  else
    return none

/-- `GlintsScraper._build_description`.  Result is a string or Python
`None` (modelled as `JVal.null`). -/
def build_description (job : JVal) (skills : List JVal) : Except Unit JVal := do
  let ty ← jvGet job "type"
  let parts₁ : List String := if truthy ty then ["Type: " ++ pyStr ty] else []
  let edu ← jvGet job "educationLevel"
  let parts₂ := parts₁ ++ (if truthy edu then ["Education: " ++ pyStr edu] else [])
  let minExp ← jvGet job "minYearsOfExperience"
  let maxExp ← jvGet job "maxYearsOfExperience"
  let parts₃ := parts₂ ++
    (if !isNull minExp || !isNull maxExp then
      (if truthy minExp && truthy maxExp then
        ["Experience: " ++ pyStr minExp ++ "-" ++ pyStr maxExp ++ " years"]
      else if truthy minExp then
        ["Experience: " ++ pyStr minExp ++ "+ years"]
      else [])
    else [])
  let parts₄ ←
    if skills.isEmpty then pure parts₃
    else do
      let joined ← pyJoin ", " skills
      pure (parts₃ ++ ["Skills: " ++ joined])
  let company := pyOr (← jvGetD job "company" (.obj [])) (.obj [])
  let industry := pyOr (← jvGetD company "industry" (.obj [])) (.obj [])
  let iname ← jvGet industry "name"
  let parts₅ := parts₄ ++ (if truthy iname then ["Industry: " ++ pyStr iname] else [])
  if parts₅.isEmpty then return .null
  return .str (String.intercalate " | " parts₅)

/-- Location extraction part of `GlintsScraper._parse_job` (lines 171-187). -/
def glints_location (job : JVal) : Except Unit JVal := do
  let locationData := pyOr (← jvGetD job "location" (.obj [])) (.obj [])
  let fn ← jvGet locationData "formattedName"
  let parts₁ : List JVal := if truthy fn then [fn] else []
  let parents := pyOr (← jvGetD locationData "parents" (.arr [])) (.arr [])
  let parentList ← pyIter parents
  let parts ← parentList.take 2 |>.foldlM (fun acc parent => do
    if truthy parent then
      let pfn ← jvGet parent "formattedName"
      if truthy pfn then pure (acc ++ [pfn]) else pure acc
    else pure acc) parts₁
  if parts.isEmpty then
    let country := pyOr (← jvGetD job "country" (.obj [])) (.obj [])
    jvGetD country "name" (.str "Indonesia")
  else
    .str <$> pyJoin ", " parts

/-- Salary extraction part of `GlintsScraper._parse_job` (lines 189-204):
returns (min, max, currency) before formatting. -/
def glints_salary_fields (job : JVal) : Except Unit (JVal × JVal × JVal) := do
  let est := pyOr (← jvGetD job "salaryEstimate" (.obj [])) (.obj [])
  let sMin ← jvGet est "minAmount"
  let sMax ← jvGet est "maxAmount"
  let sCur := pyOr (← jvGet est "currencyCode") (← jvGet est "CurrencyCode")
  if !truthy sMin then
    let salaries := pyOr (← jvGetD job "salaries" (.arr [])) (.arr [])
    if truthy salaries then
      let items ← pyIter salaries
      match items.head? with
      | some s0 => do
        let m ← jvGet s0 "minAmount"
        let mx ← jvGet s0 "maxAmount"
        let c ← jvGet s0 "currencyCode"
        pure (m, mx, c)
      | none => .error ()
    else pure (sMin, sMax, sCur)
  else pure (sMin, sMax, sCur)

/-- Skill-name collection of `GlintsScraper._parse_job` (lines 206-213). -/
def glints_skills (job : JVal) : Except Unit (List JVal) := do
  let raw := pyOr (← jvGetD job "skills" (.arr [])) (.arr [])
  let items ← pyIter raw
  items.foldlM (fun acc item => do
    if truthy item then
      let detail := pyOr (← jvGetD item "skill" (.obj [])) (.obj [])
      let name ← jvGet detail "name"
      if truthy name then pure (acc ++ [name]) else pure acc
    else pure acc) []

/-- Body of `GlintsScraper._parse_job` minus the prefixed id, which the
caller assembles (the try/except wrapper lives in `parse_job_g`). -/
def glints_job_rest (job : JVal) (searchKeyword : Option String) (jobId : JVal) :
    Except Unit GlintsJob := do
  let jobIdStr := pyStr jobId
  let company := pyOr (← jvGetD job "company" (.obj [])) (.obj [])
  let companyName ← jvGetD company "name" (.str "Unknown Company")
  let companyId ← jvGetD company "id" (.str "")
  let companyUrl :=
    if truthy companyId then some ("https://glints.com/id/companies/" ++ pyStr companyId)
    else none
  let location ← glints_location job
  let (sMin, sMax, sCur) ← glints_salary_fields job
  let salary ← format_salary sMin sMax sCur
  let skills ← glints_skills job
  let jobUrl :=
    if truthy jobId then
      "https://glints.com/id/opportunities/jobs/" ++ jobIdStr
    else ""
  let workArrangement ← jvGet job "workArrangementOption"
  let jobType ← map_work_arrangement workArrangement
  let description ← build_description job skills
  let dpRaw ← jvGet job "createdAt"
  let datePosted ←
    if truthy dpRaw then
      match dpRaw with
      | .str s =>
        pure (JVal.str (if strIn "T" s then (strSplitChar 'T' s).headD s else s))
      | _ => .error ()
    else pure dpRaw
  let title ← jvGetD job "title" (.str "Unknown Title")
  return {
    id := "glints_" ++ jobIdStr
    title := title
    company := companyName
    company_url := companyUrl
    location := location
    salary := salary
    date_posted := datePosted
    job_url := jobUrl
    description := description
    job_type := jobType
    search_keywords := searchKeyword
  }

/-- `GlintsScraper._parse_job`: any exception in the body is caught and the
record becomes `None`. -/
def parse_job_g (searchKeyword : Option String) (job : JVal) : Option GlintsJob :=
  match (do
    let jobId ← jvGetD job "id" (.str "")
    glints_job_rest job searchKeyword jobId : Except Unit GlintsJob) with
  | .ok j => some j
  | .error _ => none

/-- `GlintsScraper._extract_jobs_from_response`: navigate
data.searchJobsV3.jobsInPage and keep records `_parse_job` accepts; a
navigation exception yields the jobs accumulated so far (none). -/
def extract_jobs_from_response (data : JVal) (searchKeyword : Option String) :
    List GlintsJob :=
  match (do
    let sd ← jvGetD data "data" (.obj [])
    let sj ← jvGetD sd "searchJobsV3" (.obj [])
    let jip ← jvGetD sj "jobsInPage" (.arr [])
    pyIter jip : Except Unit (List JVal)) with
  | .error _ => []
  | .ok items => items.filterMap (parse_job_g searchKeyword)

/-- Scroll loop of `GlintsScraper.scrape` (lines 348-366): `counts` is the
total number of accumulated jobs observed after each scroll; the result is
the number of scrolls performed before stopping. -/
def glints_scroll_loop : Nat → List Nat → Nat → Nat → Nat
  | 0, _, _, _ => 0
  | budget + 1, counts, prev, noNew =>
    let current := counts.headD prev
    if current == prev then
      if noNew + 1 ≥ 3 then 1
      else 1 + glints_scroll_loop budget counts.tail current (noNew + 1)
    else 1 + glints_scroll_loop budget counts.tail current 0

/-! ## JobStreet scraper (src/server/jobstreet-scraper.py) -/

/-- `WORK_TYPE_MAP`, in Python dict insertion order. -/
def WORK_TYPE_MAP : List (String × String) :=
  [("hybrid", "hybrid"), ("on-site", "onsite"), ("remote", "remote"),
   ("work from home", "remote")]

/-- Embedded JobStreet job dictionary as built by `parse_job_card`.
`date_posted` is omitted: `_extract_date` depends on `datetime.now` and
library ISO parsing, and no verified property concerns it. -/
structure JobJS where
  id : String
  title : JVal
  company : JVal
  company_url : String
  location : JVal
  salary : Option JVal
  job_url : JVal
  description : Option String
  work_type : Option String
  source : String
deriving Repr, BEq

/-- `_extract_location` (jobstreet): label / countryCode, then `location`
key, then suburb/area joined; final fallback "Indonesia". -/
def extract_location_js (jobData : JVal) : Except Unit JVal := do
  let locationData := pyOr (← jvGetD jobData "jobLocation" (.obj [])) (.obj [])
  let loc₁ : JVal ←
    match locationData with
    | .obj _ => do
      let a ← jvGetD locationData "label" (.str "")
      let b ← jvGetD locationData "countryCode" (.str "")
      pure (pyOr a b)
    | .str s => pure (.str s)
    | _ => pure (.str "")
  let loc₂ : JVal ←
    if truthy loc₁ then pure loc₁
    else do
      let l ← jvGetD jobData "location" (.str "")
      match l with
      | .str s => pure (.str s)
      | .obj _ => do
        let fallback ← jvGetD l "name" (.str "")
        jvGetD l "label" fallback
      | _ => pure loc₁
  let loc₃ : JVal ←
    if truthy loc₂ then pure loc₂
    else do
      let suburb ← jvGetD jobData "suburb" (.str "")
      let area ← jvGetD jobData "area" (.str "")
      let parts := [suburb, area].filter truthy
      .str <$> pyJoin ", " parts
  return pyOr loc₃ (.str "Indonesia")

/-- `_extract_salary` (jobstreet): prefer a pre-formatted label, else
compose from min/max/currency; the comma format raises on non-numbers. -/
def extract_salary_js (jobData : JVal) : Except Unit (Option JVal) := do
  let salaryData ← jvGet jobData "salary"
  if !truthy salaryData then
    let label ← jvGet jobData "salaryLabel"
    return (if truthy label then some label else none)
  match salaryData with
  | .str s => return some (.str s)
  | .obj _ => do
    let label ← jvGetD salaryData "label" (.str "")
    if truthy label then return some label
    let minSal := pyOr (← jvGet salaryData "min") (← jvGet salaryData "minimum")
    let maxSal := pyOr (← jvGet salaryData "max") (← jvGet salaryData "maximum")
    let currency ← jvGetD salaryData "currency" (.str "IDR")
    if truthy minSal && truthy maxSal then
      let lo ← fmtComma minSal
      let hi ← fmtComma maxSal
      return some (.str (pyStr currency ++ " " ++ lo ++ " - " ++ hi))
    else if truthy minSal then
      let lo ← fmtComma minSal
      return some (.str (pyStr currency ++ " " ++ lo ++ "+"))
    else if truthy maxSal then
      let hi ← fmtComma maxSal
      return some (.str (pyStr currency ++ " up to " ++ hi))
    else return none
  | _ => return none

/-- Label of one `workArrangements.data` item:
`wa.get("label", "") if isinstance(wa, dict) else str(wa)`, where a
non-string label value makes the subsequent `.lower()` raise. -/
def wa_label : JVal → Except Unit String
  | .obj kvs =>
    match (jvLookup kvs "label").getD (.str "") with
    | .str s => .ok s
    | _ => .error ()
  | other => .ok (pyStr other)

/-- Scan of `workArrangements.data` in `_extract_work_arrangement`: first
synonym of `WORK_TYPE_MAP` contained in an item's label wins. -/
def scan_wa_data : List JVal → Except Unit (Option String)
  | [] => .ok none
  | item :: rest => do
    let label ← wa_label item
    match WORK_TYPE_MAP.find? (fun kv => strIn kv.1 (strLower label)) with
    | some kv => pure (some kv.2)
    | none => scan_wa_data rest

/-- Fallback `workType` check of `_extract_work_arrangement` (jobstreet,
lines 587-596): a string field containing "remote"/"hybrid", else `None`
(a non-string field is skipped by the isinstance test). -/
def wt_fallback (jobData : JVal) : Except Unit (Option String) := do
  let wtRaw ← jvGetD jobData "workType" (.str "")
  match wtRaw with
  | .str s =>
    let l := strLower s
    if strIn "remote" l then return some "remote"
    else if strIn "hybrid" l then return some "hybrid"
    else return none
  | _ => return none

/-- `_extract_work_arrangement` (jobstreet): structured workArrangements
labels first, then the `workType` field; `None` when nothing matches. -/
def extract_work_arrangement_js (jobData : JVal) : Except Unit (Option String) := do
  let wa := pyOr (← jvGetD jobData "workArrangements" (.obj [])) (.obj [])
  let fromWa ←
    if truthy wa then do
      let waData := pyOr (← jvGetD wa "data" (.arr [])) (.arr [])
      let items ← pyIter waData
      scan_wa_data items
    else pure none
  match fromWa with
  | some v => return some v
  | none => wt_fallback jobData

/-- `_extract_work_type_from_text` (jobstreet HTML fallback), applied to a
card's visible text. -/
def extract_work_type_from_text (cardText : String) : Option String :=
  let text := strLower cardText
  if strIn "remote" text then some "remote"
  else if strIn "hybrid" text then some "hybrid"
  else if strIn "di tempat" text || strIn "on-site" text then some "onsite"
  else if strIn "magang" text || strIn "internship" text then some "internship"
  else if strIn "kontrak" text || strIn "contract" text then some "contract"
  else if strIn "paruh waktu" text || strIn "part time" text then some "part_time"
  else if strIn "penuh waktu" text || strIn "full time" text then some "full_time"
  else none

/-- Leftmost match of the pattern "/job/(digits)" in a string: the digit
group of `re.search` when it succeeds. -/
def find_job_pat : List Char → Option String
  | [] => none
  | c :: rest =>
    let here := c :: rest
    if "/job/".toList.isPrefixOf here then
      let ds := (here.drop 5).takeWhile Char.isDigit
      if ds.isEmpty then find_job_pat rest else some (String.mk ds)
    else find_job_pat rest

/-- Match of the pattern "-(digits)$": the maximal trailing digit run,
provided the character just before it is a dash. -/
def trailing_digit_id (href : String) : Option String :=
  let cs := href.toList
  let ds := (cs.reverse.takeWhile Char.isDigit).reverse
  if ds.isEmpty then none
  else
    match (cs.take (cs.length - ds.length)).getLast? with
    | some '-' => some (String.mk ds)
    | _ => none

/-- Id search of `_parse_html_cards`:
`re.search(r"/job/(\d+)", href) or re.search(r"-(\d+)$", href)`. -/
def href_job_id (href : String) : Option String :=
  match find_job_pat href.toList with
  | some d => some d
  | none => trailing_digit_id href

/-- Simplified `urllib.parse.urljoin` for the shapes the scrapers produce:
an absolute href is kept, otherwise it is resolved against the base. -/
def urljoin (base path : String) : String :=
  if strStarts path "http" then path
  else if strStarts path "/" then base ++ path
  else base ++ "/" ++ path

def BASE_URL_JS : String := "https://id.jobstreet.com"

/-- One JobStreet search-result card as the BeautifulSoup queries of
`_parse_html_cards` see it: each field is the result of the corresponding
`find` call, an element being its visible text plus (for anchors) its
`href` attribute with `""` default.  The `time`/`jobListingDate` element is
omitted: its value only feeds the wall-clock-dependent date field. -/
structure HtmlCardJS where
  aJobTitle : Option (String × String)
  h3 : Option (String × String)
  h2 : Option (String × String)
  aJobCompany : Option String
  spanJobCompany : Option String
  aJobLocation : Option String
  spanJobLocation : Option String
  spanJobSalary : Option String
  cardText : String
deriving Repr, BEq

/-- Card body of `_parse_html_cards`: the job dict built from one card
(without the date key, see `HtmlCardJS`). -/
def parse_html_card (card : HtmlCardJS) : JVal :=
  let titleEl := card.aJobTitle.orElse (fun _ => card.h3.orElse (fun _ => card.h2))
  let d₁ : List (String × JVal) :=
    match titleEl with
    | none => []
    | some (txt, href) =>
      [("title", JVal.str txt)] ++
      (if href != "" then
        [("job_url", JVal.str (urljoin BASE_URL_JS href))] ++
        (match href_job_id href with
         | some gid => [("id", JVal.str ("jobstreet_" ++ gid))]
         | none => [])
      else [])
  let d₂ := d₁ ++
    (match card.aJobCompany.orElse (fun _ => card.spanJobCompany) with
     | some c => [("company", JVal.str c)]
     | none => [])
  let d₃ := d₂ ++
    (match card.aJobLocation.orElse (fun _ => card.spanJobLocation) with
     | some l => [("location", JVal.str l)]
     | none => [])
  let d₄ := d₃ ++
    (match card.spanJobSalary with
     | some s => [("salary", JVal.str s)]
     | none => [])
  let d₅ := d₄ ++
    [("work_type",
      match extract_work_type_from_text card.cardText with
      | some wt => JVal.str wt
      | none => JVal.null)]
  JVal.obj d₅

/-- A fetched JobStreet page as BeautifulSoup exposes it to the scraper:
the `__NEXT_DATA__` script (`none` = absent element, `some (.error ())` =
present but `json.loads` raises) and the three card selector queries of
`_parse_html_cards`. -/
structure SoupJS where
  nextData : Option (Except Unit JVal)
  articleNormalJob : List HtmlCardJS
  divNormalJob : List HtmlCardJS
  articleJobCard : List HtmlCardJS
deriving Repr

/-- Card-selector chain of `_parse_html_cards` (first non-empty query wins). -/
def select_cards (s : SoupJS) : List HtmlCardJS :=
  if !s.articleNormalJob.isEmpty then s.articleNormalJob
  else if !s.divNormalJob.isEmpty then s.divNormalJob
  else s.articleJobCard

/-- `_parse_html_cards`: parse every card, keep those with a truthy title
and id.  (The debug `dump_to_json` call is I/O only and not modelled.) -/
def parse_html_cards (s : SoupJS) : JVal :=
  JVal.arr ((select_cards s).map parse_html_card |>.filter (fun j =>
    match j with
    | .obj kvs =>
      truthy ((jvLookup kvs "title").getD .null) &&
      truthy ((jvLookup kvs "id").getD .null)
    | _ => false))

/-- Tier-1 navigation of `_extract_job_listings` over the parsed
`__NEXT_DATA__` JSON; any exception falls through to Tier 2. -/
def next_data_listings (data : JVal) : Except Unit JVal := do
  let props ← jvGetD data "props" (.obj [])
  let pageProps ← jvGetD props "pageProps" (.obj [])
  let searchData :=
    pyOr (pyOr (← jvGetD pageProps "search" (.obj []))
               (← jvGetD pageProps "searchResults" (.obj []))) pageProps
  let listings :=
    pyOr (← jvGetD searchData "data" (.arr [])) (← jvGetD searchData "jobs" (.arr []))
  match listings with
  | .obj kvs =>
    match jvLookup kvs "data" with
    | some inner => pure inner
    | none => pure listings
  | _ => pure listings

/-- `_extract_job_listings`: structured `__NEXT_DATA__` first (absent,
unparseable or empty falls through), HTML cards second. -/
def extract_job_listings (s : SoupJS) : JVal :=
  match s.nextData with
  | some (.ok data) =>
    match next_data_listings data with
    | .ok listings => if truthy listings then listings else parse_html_cards s
    | .error _ => parse_html_cards s
  | some (.error _) => parse_html_cards s
  | none => parse_html_cards s

/-- Python `v == "N/A"`-style comparison of an arbitrary value against a
string literal. -/
def jvEqStr (v : JVal) (s : String) : Bool :=
  match v with
  | .str t => t == s
  | _ => false

/-- Native-id extraction of `parse_job_card` (jobstreet):
`str(get("id") or get("jobId") or get("listingId") or "")`. -/
def js_native_id (jobData : JVal) : Except Unit String := do
  let a ← jvGet jobData "id"
  let b ← jvGet jobData "jobId"
  let c ← jvGet jobData "listingId"
  pure (pyStr (pyOr (pyOr (pyOr a b) c) (.str "")))

/-- Company block of `parse_job_card` (jobstreet, lines 271-284): returns
(company_name, company_url). -/
def js_company (jobData : JVal) : Except Unit (JVal × String) := do
  let advertiser := pyOr (← jvGetD jobData "advertiser" (.obj [])) (.obj [])
  let (name₁, url₁) ←
    if truthy advertiser then do
      let n ← jvGetD advertiser "description" (.str "N/A")
      let cid ← jvGetD advertiser "id" (.str "")
      pure (n, if truthy cid then BASE_URL_JS ++ "/en/companies/" ++ pyStr cid else "")
    else pure (JVal.str "N/A", "")
  if jvEqStr name₁ "N/A" then do
    let n ← jvGetD jobData "companyName" (.str "N/A")
    let meta := pyOr (← jvGetD jobData "companyMeta" (.obj [])) (.obj [])
    let mid ← jvGet meta "id"
    pure (n, if truthy mid then BASE_URL_JS ++ "/en/companies/" ++ pyStr mid else url₁)
  else pure (name₁, url₁)

/-- Job-URL block of `parse_job_card` (jobstreet, lines 295-302). -/
def js_job_url (jobData : JVal) (jobId : String) : Except Unit JVal := do
  let ju ← jvGet jobData "jobUrl"
  if truthy ju then
    match ju with
    | .str s => pure (.str (urljoin BASE_URL_JS s))
    | _ => .error ()
  else do
    let ju₂ ← jvGet jobData "job_url"
    if truthy ju₂ then pure ju₂
    else pure (.str (BASE_URL_JS ++ "/en/job/" ++ jobId))

/-- `parse_job_card` (jobstreet) minus the native-id guard, assembling the
record for a given non-empty native id.  The per-job detail fetch
(`get_job_description`) is the oracle `detail`: it returns the description
and work-type the detail page would yield, `(none, none)` standing for any
of its failure modes. -/
def parse_job_rest_js (detail : JVal → Option String × Option String)
    (jobData : JVal) (jobId : String) : Except Unit JobJS := do
  let title := pyOr (pyOr (← jvGet jobData "title") (← jvGet jobData "jobTitle"))
    (.str "N/A")
  let (companyName, companyUrl) ← js_company jobData
  let location ← extract_location_js jobData
  let salary ← extract_salary_js jobData
  let jobUrl ← js_job_url jobData jobId
  let workType ← extract_work_arrangement_js jobData
  let (desc, detailWt) := detail jobUrl
  let workType₂ :=
    if !strOptTruthy workType && strOptTruthy detailWt then detailWt else workType
  return {
    id := "jobstreet_" ++ jobId
    title := title
    company := companyName
    company_url := companyUrl
    location := location
    salary := salary
    job_url := jobUrl
    description := desc
    work_type := workType₂
    source := "jobstreet"
  }

/-- `parse_job_card` (jobstreet): drop on an empty native id; any
exception in the body is caught and yields `None`. -/
def parse_job_card_js (detail : JVal → Option String × Option String)
    (jobData : JVal) : Option JobJS :=
  match (do
    let jobId ← js_native_id jobData
    if jobId == "" then pure none
    else some <$> parse_job_rest_js detail jobData jobId : Except Unit (Option JobJS)) with
  | .ok o => o
  | .error _ => none

/-- Progress events of the async crawls (`on_progress` callback payloads). -/
inductive Event where
  | fetching_page (page jobsFound : Nat)
  | rate_limit (waitSeconds : Nat)
  | parsing (current total : Nat)
deriving Repr, BEq, DecidableEq

/-- One HTTP request outcome supplied by the fetch oracle. -/
inductive FetchOutcome (π : Type) where
  | ok (page : π)
  | status429
  | statusOther
  | exn
deriving Repr, BEq

/-- The per-card loop of `search_jobs` (jobstreet, lines 235-242): parse,
dedup against `seen_ids`, stop mid-page once `results_wanted` is reached. -/
def process_cards_js (detail : JVal → Option String × Option String) (wanted : Nat) :
    List JobJS → List String → List JVal → List JobJS × List String
  | jobs, seen, [] => (jobs, seen)
  | jobs, seen, c :: cs =>
    match parse_job_card_js detail c with
    | none => process_cards_js detail wanted jobs seen cs
    | some j =>
      if seen.contains j.id then process_cards_js detail wanted jobs seen cs
      else
        let jobs₂ := jobs ++ [j]
        let seen₂ := seen ++ [j.id]
        if wanted ≤ jobs₂.length then (jobs₂, seen₂)
        else process_cards_js detail wanted jobs₂ seen₂ cs

/-- Crawl loop of `search_jobs` (jobstreet, sync).  Returns the job list
and the sequence of page numbers requested (one entry per HTTP request);
an uncaught exception is `.error`.  URL/parameter building, the politeness
sleeps and the 60s cooldown are time/IO-only and not modelled beyond the
page cursor. -/
def search_jobs_js_loop (detail : JVal → Option String × Option String) (wanted : Nat) :
    List JobJS → List String → Nat → List (FetchOutcome SoupJS) →
    Except Unit (List JobJS × List Nat)
  | jobs, _, page, [] =>
    if jobs.length < wanted && page ≤ 20 then .ok (jobs, [page]) else .ok (jobs, [])
  | jobs, seen, page, o :: rest =>
    if jobs.length < wanted && page ≤ 20 then
      match o with
      | .exn => .ok (jobs, [page])
      | .statusOther => .ok (jobs, [page])
      | .status429 =>
        (search_jobs_js_loop detail wanted jobs seen page rest).map
          (fun r => (r.1, page :: r.2))
      | .ok soup =>
        let cards := extract_job_listings soup
        if !truthy cards then .ok (jobs, [page])
        else
          match pyIter cards with
          | .error _ => .error ()
          | .ok items =>
            let (jobs₂, seen₂) := process_cards_js detail wanted jobs seen items
            (search_jobs_js_loop detail wanted jobs₂ seen₂ (page + 1) rest).map
              (fun r => (r.1, page :: r.2))
    else .ok (jobs, [])

/-- `search_jobs` (jobstreet): fresh accumulator, `seen_ids` seeded from
`existing_ids`, page cursor starting at 1. -/
def search_jobs_js (detail : JVal → Option String × Option String) (wanted : Nat)
    (existing : List String) (outs : List (FetchOutcome SoupJS)) :
    Except Unit (List JobJS × List Nat) :=
  search_jobs_js_loop detail wanted [] existing 1 outs

/-- Per-card loop of `search_jobs_async` (jobstreet, lines 133-145): like
the sync one but emitting a `parsing` event per processed card. -/
def process_cards_async_js (detail : JVal → Option String × Option String)
    (wanted : Nat) (total : Nat) :
    List JobJS → List String → Nat → List JVal →
    List JobJS × List String × List Event
  | jobs, seen, _, [] => (jobs, seen, [])
  | jobs, seen, i, c :: cs =>
    let ev := Event.parsing (i + 1) total
    match parse_job_card_js detail c with
    | none =>
      let (js, sn, evs) := process_cards_async_js detail wanted total jobs seen (i + 1) cs
      (js, sn, ev :: evs)
    | some j =>
      if seen.contains j.id then
        let (js, sn, evs) := process_cards_async_js detail wanted total jobs seen (i + 1) cs
        (js, sn, ev :: evs)
      else
        let jobs₂ := jobs ++ [j]
        let seen₂ := seen ++ [j.id]
        if wanted ≤ jobs₂.length then (jobs₂, seen₂, [ev])
        else
          let (js, sn, evs) :=
            process_cards_async_js detail wanted total jobs₂ seen₂ (i + 1) cs
          (js, sn, ev :: evs)

/-- Crawl loop of `search_jobs_async` (jobstreet): same algorithm as the
sync loop plus the progress-event stream (fetching_page before each
request, rate_limit on each 429, parsing per card). -/
def search_jobs_async_js_loop (detail : JVal → Option String × Option String)
    (wanted : Nat) :
    List JobJS → List String → Nat → List (FetchOutcome SoupJS) →
    Except Unit (List JobJS × List Event)
  | jobs, _, page, [] =>
    if jobs.length < wanted && page ≤ 20 then
      .ok (jobs, [.fetching_page page jobs.length])
    else .ok (jobs, [])
  | jobs, seen, page, o :: rest =>
    if jobs.length < wanted && page ≤ 20 then
      let ev := Event.fetching_page page jobs.length
      match o with
      | .exn => .ok (jobs, [ev])
      | .statusOther => .ok (jobs, [ev])
      | .status429 =>
        (search_jobs_async_js_loop detail wanted jobs seen page rest).map
          (fun r => (r.1, ev :: .rate_limit 60 :: r.2))
      | .ok soup =>
        let cards := extract_job_listings soup
        if !truthy cards then .ok (jobs, [ev])
        else
          match pyIter cards with
          | .error _ => .error ()
          | .ok items =>
            let (jobs₂, seen₂, pevs) :=
              process_cards_async_js detail wanted items.length jobs seen 0 items
            (search_jobs_async_js_loop detail wanted jobs₂ seen₂ (page + 1) rest).map
              (fun r => (r.1, (ev :: pevs) ++ r.2))
    else .ok (jobs, [])

/-- `search_jobs_async` (jobstreet). -/
def search_jobs_async_js (detail : JVal → Option String × Option String)
    (wanted : Nat) (existing : List String) (outs : List (FetchOutcome SoupJS)) :
    Except Unit (List JobJS × List Event) :=
  search_jobs_async_js_loop detail wanted [] existing 1 outs

/-! ## LinkedIn scraper (src/server/scraper.py) -/

def BASE_URL_LI : String := "https://www.linkedin.com"

/-- One LinkedIn search-result card as `parse_job_card` (scraper.py)
queries it: `fullLink` is the `a.base-card__full-link` element with its
optional `href` attribute; the other fields are the texts of the queried
elements.  `subtitleLink` is the `a` inside the subtitle `h4` (text and
optional `href`).  The `time.job-search-card__listdate` element is omitted:
it only feeds the date field, which no verified property concerns. -/
structure CardLI where
  fullLink : Option (Option String)
  srOnly : Option String
  subtitleLink : Option (String × Option String)
  locationSpan : Option String
  salarySpan : Option String
deriving Repr, BEq

/-- Embedded LinkedIn job dictionary (without the wall-clock date field,
see `CardLI`). -/
structure JobLI where
  id : String
  title : String
  company : String
  company_url : String
  location : String
  salary : Option String
  job_url : String
  description : Option String
  work_type : Option String
deriving Repr, BEq, DecidableEq

/-- Query-stripping of the company link:
`urlunparse(urlparse(href)._replace(query=""))`, modelled for URLs without
a fragment component (the only shapes LinkedIn serves here). -/
def strip_query (u : String) : String :=
  (strSplitChar '?' u).headD ""

/-- `parse_job_card` (scraper.py): the id is the last dash-separated
component of the link href with the query stripped, and is NOT prefixed
with a source tag.  `detail` is the `get_job_description` oracle keyed by
job id; its failure modes are `(none, none)`. -/
def parse_job_card_li (detail : String → Option String × Option String)
    (card : CardLI) : Option JobLI :=
  match card.fullLink with
  | none => none
  | some none => none
  | some (some href₀) =>
    let href := (strSplitChar '?' href₀).headD ""
    let jobId := (strSplitChar '-' href).getLastD ""
    let title := card.srOnly.getD "N/A"
    let company :=
      match card.subtitleLink with
      | some (t, _) => t
      | none => "N/A"
    let companyUrl :=
      match card.subtitleLink with
      | some (_, some h) => strip_query h
      | _ => ""
    let (desc, wt) := detail jobId
    some {
      id := jobId
      title := title
      company := company
      company_url := companyUrl
      location := card.locationSpan.getD "N/A"
      salary := card.salarySpan
      job_url := BASE_URL_LI ++ "/jobs/view/" ++ jobId
      description := desc
      work_type := wt
    }

/-- Per-card loop of `search_jobs` (scraper.py, lines 224-231). -/
def process_cards_li (detail : String → Option String × Option String) (wanted : Nat) :
    List JobLI → List String → List CardLI → List JobLI × List String
  | jobs, seen, [] => (jobs, seen)
  | jobs, seen, c :: cs =>
    match parse_job_card_li detail c with
    | none => process_cards_li detail wanted jobs seen cs
    | some j =>
      if seen.contains j.id then process_cards_li detail wanted jobs seen cs
      else
        let jobs₂ := jobs ++ [j]
        let seen₂ := seen ++ [j.id]
        if wanted ≤ jobs₂.length then (jobs₂, seen₂)
        else process_cards_li detail wanted jobs₂ seen₂ cs

/-- Crawl loop of `search_jobs` (scraper.py, sync): offset cursor `start`
below 1000, `start += len(job_cards)` after each parsed page.  Returns the
job list and the offsets requested.  `soup.find_all` always yields a list,
so this loop has no uncaught-exception path. -/
def search_jobs_li_loop (detail : String → Option String × Option String)
    (wanted : Nat) :
    List JobLI → List String → Nat → List (FetchOutcome (List CardLI)) →
    List JobLI × List Nat
  | jobs, _, start, [] =>
    if jobs.length < wanted && start < 1000 then (jobs, [start]) else (jobs, [])
  | jobs, seen, start, o :: rest =>
    if jobs.length < wanted && start < 1000 then
      match o with
      | .exn => (jobs, [start])
      | .statusOther => (jobs, [start])
      | .status429 =>
        let r := search_jobs_li_loop detail wanted jobs seen start rest
        (r.1, start :: r.2)
      | .ok cards =>
        if cards.isEmpty then (jobs, [start])
        else
          let (jobs₂, seen₂) := process_cards_li detail wanted jobs seen cards
          let r := search_jobs_li_loop detail wanted jobs₂ seen₂ (start + cards.length) rest
          (r.1, start :: r.2)
    else (jobs, [])

/-- `search_jobs` (scraper.py). -/
def search_jobs_li (detail : String → Option String × Option String) (wanted : Nat)
    (existing : List String) (outs : List (FetchOutcome (List CardLI))) :
    List JobLI × List Nat :=
  search_jobs_li_loop detail wanted [] existing 0 outs

/-- Per-card loop of `search_jobs_async` (scraper.py, lines 119-131), with
a `parsing` event per processed card. -/
def process_cards_async_li (detail : String → Option String × Option String)
    (wanted : Nat) (total : Nat) :
    List JobLI → List String → Nat → List CardLI →
    List JobLI × List String × List Event
  | jobs, seen, _, [] => (jobs, seen, [])
  | jobs, seen, i, c :: cs =>
    let ev := Event.parsing (i + 1) total
    match parse_job_card_li detail c with
    | none =>
      let (js, sn, evs) := process_cards_async_li detail wanted total jobs seen (i + 1) cs
      (js, sn, ev :: evs)
    | some j =>
      if seen.contains j.id then
        let (js, sn, evs) := process_cards_async_li detail wanted total jobs seen (i + 1) cs
        (js, sn, ev :: evs)
      else
        let jobs₂ := jobs ++ [j]
        let seen₂ := seen ++ [j.id]
        if wanted ≤ jobs₂.length then (jobs₂, seen₂, [ev])
        else
          let (js, sn, evs) :=
            process_cards_async_li detail wanted total jobs₂ seen₂ (i + 1) cs
          (js, sn, ev :: evs)

/-- Crawl loop of `search_jobs_async` (scraper.py): the sync loop plus the
progress-event stream; `page` is the display page counter of the
fetching_page events, `start` the offset governing the ceiling. -/
def search_jobs_async_li_loop (detail : String → Option String × Option String)
    (wanted : Nat) :
    List JobLI → List String → Nat → Nat → List (FetchOutcome (List CardLI)) →
    List JobLI × List Event
  | jobs, _, start, page, [] =>
    if jobs.length < wanted && start < 1000 then
      (jobs, [.fetching_page page jobs.length])
    else (jobs, [])
  | jobs, seen, start, page, o :: rest =>
    if jobs.length < wanted && start < 1000 then
      let ev := Event.fetching_page page jobs.length
      match o with
      | .exn => (jobs, [ev])
      | .statusOther => (jobs, [ev])
      | .status429 =>
        let r := search_jobs_async_li_loop detail wanted jobs seen start page rest
        (r.1, ev :: .rate_limit 60 :: r.2)
      | .ok cards =>
        if cards.isEmpty then (jobs, [ev])
        else
          let (jobs₂, seen₂, pevs) :=
            process_cards_async_li detail wanted cards.length jobs seen 0 cards
          let r := search_jobs_async_li_loop detail wanted jobs₂ seen₂
            (start + cards.length) (page + 1) rest
          (r.1, (ev :: pevs) ++ r.2)
    else (jobs, [])

/-- `search_jobs_async` (scraper.py). -/
def search_jobs_async_li (detail : String → Option String × Option String)
    (wanted : Nat) (existing : List String) (outs : List (FetchOutcome (List CardLI))) :
    List JobLI × List Event :=
  search_jobs_async_li_loop detail wanted [] existing 0 1 outs

/-! ## WebSocket progress delivery (src/server/main.py `websocket_scrape`,
src/server/websocket_manager.py `ConnectionManager`) -/

/-- Messages the handler pushes through `ConnectionManager.send_progress`. -/
inductive WsMsg where
  | started (message : String)
  | progress (e : Event)
  | completed (totalJobs newJobs : Nat)
  | error (message : String)
deriving Repr, BEq, DecidableEq

/-- `ConnectionManager.send_progress` applied to a sequence of messages:
`sched` says, per attempted `send_json`, whether it raises.  A failed send
deregisters the connection (so later sends are silently skipped) and is
swallowed; the crawl driving the messages never sees it. -/
def send_seq : List WsMsg → Bool → List Bool → List WsMsg
  | [], _, _ => []
  | m :: ms, connected, sched =>
    if connected then
      if sched.headD false then send_seq ms false sched.tail
      else m :: send_seq ms true sched.tail
    else send_seq ms false sched

/-- Outcome of the initial `websocket.receive_json()` /
request-validation step of `websocket_scrape`. -/
inductive RecvOutcome where
  | ok
  | disconnect
  | badRequest (message : String)

/-- `websocket_scrape` (main.py lines 345-398): the delivered message
stream, and `some jobs` iff `search_jobs_async` ran to completion (its
events and result are the oracle arguments).  A `WebSocketDisconnect` at
receive time is passed over silently; any other handler exception (here:
request validation or the database save, whose failure is `dbOk = false`)
is answered with a terminal error send; otherwise `send_completed` follows
the crawl.  (The source wraps the keywords of the started message in
single-quote characters; that decoration is elided here.) -/
def websocket_scrape (keywords : String) (recv : RecvOutcome)
    (crawlEvents : List Event) (jobs : List JobLI) (newCount : Nat)
    (dbOk : Bool) (dbErr : String) (sched : List Bool) :
    List WsMsg × Option (List JobLI) :=
  match recv with
  | .disconnect => ([], none)
  | .badRequest msg => (send_seq [.error msg] true sched, none)
  | .ok =>
    let planned :=
      WsMsg.started ("Searching for " ++ keywords ++ "...") ::
      crawlEvents.map WsMsg.progress ++
      [if dbOk then WsMsg.completed jobs.length newCount else WsMsg.error dbErr]
    (send_seq planned true sched, some jobs)

/-! ## Concrete fixtures used by the theorems below -/

/-- Detail-fetch oracle standing for a `get_job_description` call that
yields nothing (its universal failure mode). -/
def dnJS : JVal → Option String × Option String := fun _ => (none, none)

/-- Detail-fetch oracle for the LinkedIn scraper, same failure mode. -/
def dnLI : String → Option String × Option String := fun _ => (none, none)

/-- A minimal raw JobStreet listing carrying only a native id. -/
def idOnlyListing : JVal := .obj [("id", .num 1)]

/-- A `__NEXT_DATA__` page whose structured payload holds exactly
`idOnlyListing`. -/
def soupIdOnly : SoupJS :=
  { nextData := some (.ok (.obj [("props", .obj [("pageProps",
      .obj [("search", .obj [("data", .arr [idOnlyListing])])])])]))
    articleNormalJob := []
    divNormalJob := []
    articleJobCard := [] }

/-- A page whose single listing duplicates the already-stored id
`jobstreet_7`. -/
def soupDup : SoupJS :=
  { nextData := some (.ok (.obj [("props", .obj [("pageProps",
      .obj [("search", .obj [("data", .arr [.obj [("id", .num 7)]])])])])]))
    articleNormalJob := []
    divNormalJob := []
    articleJobCard := [] }

/-- A page yielding no listings at all. -/
def soupEmpty : SoupJS :=
  { nextData := none, articleNormalJob := [], divNormalJob := [], articleJobCard := [] }

/-- A page whose structured payload nests a truthy non-iterable (the
number 5) where the listings belong. -/
def soupBad : SoupJS :=
  { nextData := some (.ok (.obj [("props", .obj [("pageProps",
      .obj [("search", .obj [("data", .num 5)])])])]))
    articleNormalJob := []
    divNormalJob := []
    articleJobCard := [] }

/-- A well-formed HTML fallback card (title anchor with an id-bearing
href). -/
def goodCard : HtmlCardJS :=
  { aJobTitle := some ("Dev", "/job/123-dev")
    h3 := none, h2 := none
    aJobCompany := none, spanJobCompany := none
    aJobLocation := none, spanJobLocation := none
    spanJobSalary := none
    cardText := "" }

/-- A page whose `__NEXT_DATA__` script is present but malformed
(`json.loads` raises) while the HTML fallback markup holds `goodCard`. -/
def soupMalformed : SoupJS :=
  { nextData := some (.error ())
    articleNormalJob := [goodCard]
    divNormalJob := []
    articleJobCard := [] }

/-- A LinkedIn result card whose link href ends in the native id 4021. -/
def cardLI : CardLI :=
  { fullLink := some (some "https://www.linkedin.com/jobs/view/data-engineer-4021")
    srOnly := some "Data Engineer"
    subtitleLink := none
    locationSpan := none
    salarySpan := none }

/-- A Glints GraphQL response whose single listing is the empty dict: no
native id, no title. -/
def glintsNoIdData : JVal :=
  .obj [("data", .obj [("searchJobsV3", .obj [("jobsInPage", .arr [.obj []])])])]

/-- The JobStreet record that `parse_job_card` produces from
`idOnlyListing` (all fallbacks engaged). -/
def jobIdOnly : JobJS :=
  { id := "jobstreet_1", title := .str "N/A", company := .str "N/A",
    company_url := "", location := .str "Indonesia", salary := none,
    job_url := .str "https://id.jobstreet.com/en/job/1", description := none,
    work_type := none, source := "jobstreet" }

/-- The LinkedIn record parsed from `cardLI`. -/
def jobLI4021 : JobLI :=
  { id := "4021", title := "Data Engineer", company := "N/A", company_url := "",
    location := "N/A", salary := none,
    job_url := "https://www.linkedin.com/jobs/view/4021", description := none,
    work_type := none }

/-! ## Theorems -/

/-- Claim C8: salary formatting.  For numeric min/max and a currency, both
present gives "currency min - max" with thousands separators, only min
gives "currency min+", only max gives "currency up to max", neither gives
an absent salary without an error; in particular min=1000000, max=2000000,
currency="IDR" formats as "IDR 1,000,000 - 2,000,000".  Proved for both
`GlintsScraper._format_salary` and the composing branch of the jobstreet
`_extract_salary` (presence being the truthiness test the code performs,
see claim C10 for the zero-amount consequence). -/
theorem c8_salary_formatting :
    (∀ (m M : Int) (c : String), m ≠ 0 → M ≠ 0 → c ≠ "" →
      format_salary (.num m) (.num M) (.str c) =
        .ok (some (c ++ " " ++ commaInt m ++ " - " ++ commaInt M))) ∧
    (∀ (m : Int) (c : String), m ≠ 0 → c ≠ "" →
      format_salary (.num m) .null (.str c) =
        .ok (some (c ++ " " ++ commaInt m ++ "+"))) ∧
    (∀ (M : Int) (c : String), M ≠ 0 → c ≠ "" →
      format_salary .null (.num M) (.str c) =
        .ok (some (c ++ " up to " ++ commaInt M))) ∧
    (format_salary .null .null (.str "IDR") = .ok none) ∧
    (format_salary (.num 1000000) (.num 2000000) (.str "IDR") =
      .ok (some "IDR 1,000,000 - 2,000,000")) ∧
    (∀ (m M : Int) (c : String), m ≠ 0 → M ≠ 0 →
      extract_salary_js (.obj [("salary",
          .obj [("min", .num m), ("max", .num M), ("currency", .str c)])]) =
        .ok (some (.str (c ++ " " ++ commaInt m ++ " - " ++ commaInt M)))) ∧
    (∀ (m : Int) (c : String), m ≠ 0 →
      extract_salary_js (.obj [("salary",
          .obj [("min", .num m), ("currency", .str c)])]) =
        .ok (some (.str (c ++ " " ++ commaInt m ++ "+")))) ∧
    (∀ (M : Int) (c : String), M ≠ 0 →
      extract_salary_js (.obj [("salary",
          .obj [("max", .num M), ("currency", .str c)])]) =
        .ok (some (.str (c ++ " up to " ++ commaInt M)))) ∧
    (extract_salary_js (.obj [("salary", .obj [("currency", .str "IDR")])]) =
      .ok none) := by
  refine ⟨?_, ?_, ?_, rfl, rfl, ?_, ?_, ?_, rfl⟩
  · intro m M c hm hM hc
    simp [format_salary, truthy, fmtComma, pyOr, pyStr, bind, Except.bind, pure, Except.pure, hm, hM, hc]
  · intro m c hm hc
    simp [format_salary, truthy, fmtComma, pyOr, pyStr, bind, Except.bind, pure, Except.pure, hm, hc]
  · intro M c hM hc
    simp [format_salary, truthy, fmtComma, pyOr, pyStr, bind, Except.bind, pure, Except.pure, hM, hc]
  · intro m M c hm hM
    simp [extract_salary_js, truthy, fmtComma, pyOr, pyStr, jvGet, jvGetD,
      jvLookup, bind, Except.bind, pure, Except.pure, hm, hM]
  · intro m c hm
    simp [extract_salary_js, truthy, fmtComma, pyOr, pyStr, jvGet, jvGetD,
      jvLookup, bind, Except.bind, pure, Except.pure, hm]
  · intro M c hM
    simp [extract_salary_js, truthy, fmtComma, pyOr, pyStr, jvGet, jvGetD,
      jvLookup, bind, Except.bind, pure, Except.pure, hM]

/-- Witness for C8: the spec's concrete min-only example evaluated through
the theorem. -/
theorem c8_salary_formatting_witness :
    (500000 : Int) ≠ 0 ∧ "IDR" ≠ "" ∧
    format_salary (.num 500000) .null (.str "IDR") = .ok (some "IDR 500,000+") := by
  refine ⟨by decide, by decide, ?_⟩
  rw [c8_salary_formatting.2.1 500000 "IDR" (by decide) (by decide)]
  rfl

/-- Claim C10 (implicit): a zero amount is treated as absent because
presence is truthiness.  min=0 with max=M>0 formats as the "up to" form
(not a range), and min=0 with max=0 yields an absent salary, in both the
Glints formatter and the jobstreet `_extract_salary` composing branch. -/
theorem c10_zero_amount_absent :
    (∀ (M : Int) (c : String), 0 < M → c ≠ "" →
      format_salary (.num 0) (.num M) (.str c) =
        .ok (some (c ++ " up to " ++ commaInt M))) ∧
    (format_salary (.num 0) (.num 0) (.str "IDR") = .ok none) ∧
    (∀ (M : Int), 0 < M →
      extract_salary_js (.obj [("salary",
          .obj [("min", .num 0), ("max", .num M), ("currency", .str "IDR")])]) =
        .ok (some (.str ("IDR up to " ++ commaInt M)))) ∧
    (extract_salary_js (.obj [("salary",
        .obj [("min", .num 0), ("max", .num 0), ("currency", .str "IDR")])]) =
      .ok none) := by
  refine ⟨?_, rfl, ?_, rfl⟩
  · intro M c hM hc
    have hM' : M ≠ 0 := by omega
    simp [format_salary, truthy, fmtComma, pyOr, pyStr, bind, Except.bind, pure,
      Except.pure, hM', hc]
  · intro M hM
    have hM' : M ≠ 0 := by omega
    simp [extract_salary_js, truthy, fmtComma, pyOr, pyStr, jvGet, jvGetD,
      jvLookup, bind, Except.bind, pure, Except.pure, hM']

/-- Witness for C10: min=0, max=9 formats as "IDR up to 9". -/
theorem c10_zero_amount_absent_witness :
    (0 : Int) < 9 ∧ "IDR" ≠ "" ∧
    format_salary (.num 0) (.num 9) (.str "IDR") = .ok (some "IDR up to 9") := by
  refine ⟨by decide, by decide, ?_⟩
  rw [c10_zero_amount_absent.1 9 "IDR" (by decide) (by decide)]
  rfl

/-- Claim C7: a malformed `__NEXT_DATA__` block never raises past the
extractor: `_extract_job_listings` falls through to the Tier-2 HTML-card
scan, and when the fallback markup holds a valid card the extraction still
yields that listing (shown on `soupMalformed`). -/
theorem c7_extractor_fallback :
    (∀ s : SoupJS, s.nextData = some (.error ()) →
      extract_job_listings s = parse_html_cards s) ∧
    extract_job_listings soupMalformed =
      .arr [.obj [("title", .str "Dev"),
                  ("job_url", .str "https://id.jobstreet.com/job/123-dev"),
                  ("id", .str "jobstreet_123"),
                  ("work_type", .null)]] := by
  refine ⟨?_, by rfl⟩
  intro s h
  simp [extract_job_listings, h]

/-- Witness for C7: the fallback equation applied to the malformed-JSON
fixture page. -/
theorem c7_extractor_fallback_witness :
    soupMalformed.nextData = some (.error ()) ∧
    extract_job_listings soupMalformed = parse_html_cards soupMalformed :=
  ⟨rfl, c7_extractor_fallback.1 soupMalformed rfl⟩

/-- Claim C5: a 429 outcome while the loop conditions hold makes the async
crawls emit the fetching_page event and then exactly one rate_limit event
with a 60-second wait, and continue with the page cursor (and, for
LinkedIn, the offset governing the 1000-record ceiling) and all
accumulated state unchanged: the retried request targets the same page,
the retry does not consume the page/offset ceiling, and the job list is
exactly the one produced by the crawl in which the page succeeds once. -/
theorem c5_rate_limit_retry :
    (∀ (detail : JVal → Option String × Option String) (wanted : Nat)
        (jobs : List JobJS) (seen : List String) (page : Nat)
        (rest : List (FetchOutcome SoupJS)),
      jobs.length < wanted → page ≤ 20 →
      search_jobs_async_js_loop detail wanted jobs seen page (.status429 :: rest) =
        (search_jobs_async_js_loop detail wanted jobs seen page rest).map
          (fun r => (r.1,
            Event.fetching_page page jobs.length :: Event.rate_limit 60 :: r.2))) ∧
    (∀ (detail : String → Option String × Option String) (wanted : Nat)
        (jobs : List JobLI) (seen : List String) (start page : Nat)
        (rest : List (FetchOutcome (List CardLI))),
      jobs.length < wanted → start < 1000 →
      search_jobs_async_li_loop detail wanted jobs seen start page (.status429 :: rest) =
        ((search_jobs_async_li_loop detail wanted jobs seen start page rest).1,
         Event.fetching_page page jobs.length :: Event.rate_limit 60 ::
           (search_jobs_async_li_loop detail wanted jobs seen start page rest).2)) := by
  constructor
  · intro detail wanted jobs seen page rest h1 h2
    simp [search_jobs_async_js_loop, h1, h2]
  · intro detail wanted jobs seen start page rest h1 h2
    simp [search_jobs_async_li_loop, h1, h2]

/-- Witness for C5: one 429 followed by oracle exhaustion, page 1 of a
fresh jobstreet crawl. -/
theorem c5_rate_limit_retry_witness :
    ([] : List JobJS).length < 25 ∧ (1 : Nat) ≤ 20 ∧
    search_jobs_async_js_loop dnJS 25 [] [] 1 [.status429] =
      (search_jobs_async_js_loop dnJS 25 [] [] 1 []).map
        (fun r => (r.1,
          Event.fetching_page 1 0 :: Event.rate_limit 60 :: r.2)) :=
  ⟨by decide, by decide, c5_rate_limit_retry.1 dnJS 25 [] [] 1 [] (by decide) (by decide)⟩

/-- A successful search of `WORK_TYPE_MAP` yields one of its values. -/
theorem find_wt_map_range {p : String × String → Bool} {kv : String × String}
    (h : WORK_TYPE_MAP.find? p = some kv) :
    kv.2 = "hybrid" ∨ kv.2 = "onsite" ∨ kv.2 = "remote" := by
  have hmem := List.mem_of_find?_eq_some h
  simp only [WORK_TYPE_MAP, List.mem_cons, List.not_mem_nil, or_false] at hmem
  rcases hmem with h1 | h1 | h1 | h1 <;> simp [h1]

/-- The structured-label scan only ever yields values of `WORK_TYPE_MAP`. -/
theorem scan_wa_data_range (items : List JVal) (r : String)
    (h : scan_wa_data items = .ok (some r)) :
    r = "hybrid" ∨ r = "onsite" ∨ r = "remote" := by
  induction items with
  | nil => simp [scan_wa_data] at h
  | cons item rest ih =>
    rw [scan_wa_data] at h
    cases hl : wa_label item with
    | error e => rw [hl] at h; exact absurd h (by simp [bind, Except.bind])
    | ok label =>
      rw [hl] at h
      simp only [bind, Except.bind] at h
      cases hf : WORK_TYPE_MAP.find? (fun kv => strIn kv.1 (strLower label)) with
      | some kv =>
        rw [hf] at h
        have hr : kv.2 = r := by simpa [pure, Except.pure] using h
        rw [← hr]
        exact find_wt_map_range hf
      | none =>
        rw [hf] at h
        exact ih h

/-- The `workType` fallback yields only `None`, remote or hybrid. -/
theorem wt_fallback_range (jd : JVal) (o : Option String)
    (h : wt_fallback jd = .ok o) :
    o = none ∨ o = some "remote" ∨ o = some "hybrid" := by
  unfold wt_fallback at h
  cases hg : jvGetD jd "workType" (.str "") with
  | error e => rw [hg] at h; exact absurd h (by simp [bind, Except.bind])
  | ok wtRaw =>
    rw [hg] at h
    simp only [bind, Except.bind] at h
    rcases wtRaw with _ | b | n | s | xs | kvs <;>
      simp only [pure, Except.pure, Except.ok.injEq] at h <;>
      try (left; exact h.symm)
    split at h
    · right; left; simpa [pure, Except.pure] using h.symm
    · split at h
      · right; right; simpa [pure, Except.pure] using h.symm
      · left; simpa [pure, Except.pure] using h.symm

/-- `_extract_work_arrangement` yields only `None`, remote, hybrid or
onsite — in particular it returns `None`, not "onsite", when nothing
matches. -/
theorem ewa_js_range (jd : JVal) (o : Option String)
    (h : extract_work_arrangement_js jd = .ok o) :
    o = none ∨ o = some "remote" ∨ o = some "hybrid" ∨ o = some "onsite" := by
  unfold extract_work_arrangement_js at h
  cases hg : jvGetD jd "workArrangements" (.obj []) with
  | error e => rw [hg] at h; exact absurd h (by simp [bind, Except.bind])
  | ok w =>
    rw [hg] at h
    simp only [bind, Except.bind] at h
    by_cases ht : truthy (pyOr w (.obj [])) = true
    · rw [if_pos ht] at h
      cases hd : jvGetD (pyOr w (.obj [])) "data" (.arr []) with
      | error e => rw [hd] at h; exact absurd h (by simp [bind, Except.bind])
      | ok d =>
        rw [hd] at h
        simp only [bind, Except.bind] at h
        cases hi : pyIter (pyOr d (.arr [])) with
        | error e => rw [hi] at h; exact absurd h (by simp [bind, Except.bind])
        | ok items =>
          rw [hi] at h
          simp only [bind, Except.bind] at h
          cases hs : scan_wa_data items with
          | error e => rw [hs] at h; exact absurd h (by simp)
          | ok fromWa =>
            rw [hs] at h
            cases fromWa with
            | some v =>
              have hv := scan_wa_data_range items v hs
              have ho : o = some v := by
                simpa [pure, Except.pure] using h.symm
              rw [ho]
              rcases hv with h1 | h1 | h1 <;> simp [h1]
            | none => rcases wt_fallback_range jd o h with h1 | h1 | h1 <;> simp [h1]
    · rw [if_neg ht] at h
      simp only [pure, Except.pure] at h
      rcases wt_fallback_range jd o h with h1 | h1 | h1 <;> simp [h1]

/-- Claim C2, counterexample: a crawled JobStreet record whose raw listing
matches no work-arrangement synonym is emitted with work_type `None` — not
"onsite" and not any member of the remote/hybrid/onsite enum — so the
claimed "workArrangement ∈ set with onsite default" fails on the code. -/
theorem c2_work_arrangement_counterexample :
    (search_jobs_js dnJS 25 [] [.ok soupIdOnly]).map
        (fun r => r.1.map (fun j => j.work_type)) = .ok [none] ∧
    (none : Option String) ∉ [some "remote", some "hybrid", some "onsite"] :=
  ⟨by rfl, by decide⟩

/-- Claim C2, amended: Glints maps the structured field into exactly
remote/hybrid/onsite with onsite as the no-match/absent default, but
JobStreet's `_extract_work_arrangement` yields `None` (not onsite) when
nothing matches — remote/hybrid/onsite only when a synonym or workType
matches — and its HTML-text fallback can also yield employment types such
as "full_time" that are outside the claimed enum. -/
theorem c2_work_arrangement_amended :
    (∀ (v : JVal) (r : String), map_work_arrangement v = .ok r →
      r = "remote" ∨ r = "hybrid" ∨ r = "onsite") ∧
    (map_work_arrangement .null = .ok "onsite") ∧
    (∀ (jd : JVal) (o : Option String), extract_work_arrangement_js jd = .ok o →
      o = none ∨ o = some "remote" ∨ o = some "hybrid" ∨ o = some "onsite") ∧
    (extract_work_type_from_text "penuh waktu" = some "full_time") := by
  refine ⟨?_, by rfl, ewa_js_range, by rfl⟩
  intro v r h
  unfold map_work_arrangement at h
  by_cases ht : truthy v = true
  · simp only [ht, Bool.not_true, Bool.false_eq_true, if_false] at h
    rcases v with _ | b | n | s | xs | kvs
    · simp [truthy] at ht
    · simp at h
    · simp at h
    · dsimp only at h
      by_cases h1 : (strUpper s == "REMOTE") = true
      · rw [if_pos h1] at h; left; exact (Except.ok.inj h).symm
      · rw [if_neg h1] at h
        by_cases h2 : (strUpper s == "HYBRID") = true
        · rw [if_pos h2] at h; right; left; exact (Except.ok.inj h).symm
        · rw [if_neg h2] at h
          by_cases h3 : (strUpper s == "ONSITE") = true
          · rw [if_pos h3] at h; right; right; exact (Except.ok.inj h).symm
          · rw [if_neg h3] at h; right; right; exact (Except.ok.inj h).symm
    · simp at h
    · simp at h
  · simp only [Bool.not_eq_true] at ht
    simp only [ht, Bool.not_false, if_true] at h
    right; right; simpa using h.symm

/-- Witness for C2 (amended): the Glints mapper applied to "REMOTE". -/
theorem c2_work_arrangement_amended_witness :
    map_work_arrangement (.str "REMOTE") = .ok "remote" ∧
    ("remote" = "remote" ∨ "remote" = "hybrid" ∨ "remote" = "onsite") :=
  ⟨by rfl, c2_work_arrangement_amended.1 (.str "REMOTE") "remote" (by rfl)⟩

/-- Any record `parse_job_rest_js` builds carries the prefixed id it was
given. -/
theorem parse_job_rest_js_id (detail : JVal → Option String × Option String)
    (jd : JVal) (jobId : String) (r : JobJS)
    (h : parse_job_rest_js detail jd jobId = .ok r) :
    r.id = "jobstreet_" ++ jobId := by
  unfold parse_job_rest_js at h
  simp only [bind, Except.bind, pure, Except.pure] at h
  iterate 15 (all_goals (try split at h))
  all_goals
    first
    | (obtain rfl := Except.ok.inj h; rfl)
    | exact absurd h (by simp)

/-- Any record accepted by `parse_job_card` (jobstreet) has an id of the
form "jobstreet_" ++ native id with a non-empty native id. -/
theorem parse_job_card_js_prefixed (detail : JVal → Option String × Option String)
    (jd : JVal) (j : JobJS) (h : parse_job_card_js detail jd = some j) :
    ∃ s, s ≠ "" ∧ j.id = "jobstreet_" ++ s := by
  unfold parse_job_card_js at h
  simp only [bind, Except.bind] at h
  cases hi : js_native_id jd with
  | error e => rw [hi] at h; exact absurd h (by simp)
  | ok jobId =>
    rw [hi] at h
    dsimp only at h
    by_cases hz : (jobId == "") = true
    · rw [if_pos hz] at h; exact absurd h (by simp [pure, Except.pure])
    · rw [if_neg hz] at h
      cases hr : parse_job_rest_js detail jd jobId with
      | error e => rw [hr] at h; exact absurd h (by simp [Functor.map, Except.map])
      | ok r =>
        rw [hr] at h
        simp only [Functor.map, Except.map] at h
        obtain rfl : r = j := by simpa using h
        exact ⟨jobId, by simpa using hz, parse_job_rest_js_id detail jd jobId r hr⟩

/-- Jobs accumulated by the per-card loop either were already accumulated
or come from an accepted `parse_job_card` result. -/
theorem process_cards_js_inv (detail : JVal → Option String × Option String)
    (wanted : Nat) (P : JobJS → Prop)
    (hP : ∀ c j, parse_job_card_js detail c = some j → P j) :
    ∀ (items : List JVal) (jobs : List JobJS) (seen : List String),
      (∀ j ∈ jobs, P j) →
      ∀ j ∈ (process_cards_js detail wanted jobs seen items).1, P j := by
  intro items
  induction items with
  | nil =>
    intro jobs seen hj j hm
    rw [process_cards_js] at hm
    exact hj j hm
  | cons c cs ih =>
    intro jobs seen hj j hm
    rw [process_cards_js] at hm
    cases hp : parse_job_card_js detail c with
    | none => rw [hp] at hm; exact ih jobs seen hj j hm
    | some j2 =>
      rw [hp] at hm
      dsimp only at hm
      by_cases hc : seen.contains j2.id = true
      · rw [if_pos hc] at hm; exact ih jobs seen hj j hm
      · rw [if_neg hc] at hm
        have hj2 : ∀ x ∈ jobs ++ [j2], P x := by
          intro x hx
          rcases List.mem_append.mp hx with hx | hx
          · exact hj x hx
          · rw [List.mem_singleton.mp hx]; exact hP c j2 hp
        by_cases hw : wanted ≤ (jobs ++ [j2]).length
        · rw [if_pos hw] at hm; exact hj2 j hm
        · rw [if_neg hw] at hm
          exact ih (jobs ++ [j2]) (seen ++ [j2.id]) hj2 j hm

/-- Crawl-loop invariant: every job returned by the jobstreet sync loop
either entered with the accumulator or passed `parse_job_card`. -/
theorem search_jobs_js_loop_inv (detail : JVal → Option String × Option String)
    (wanted : Nat) (P : JobJS → Prop)
    (hP : ∀ c j, parse_job_card_js detail c = some j → P j) :
    ∀ (outs : List (FetchOutcome SoupJS)) (jobs : List JobJS) (seen : List String)
      (page : Nat) (res : List JobJS × List Nat),
      (∀ j ∈ jobs, P j) →
      search_jobs_js_loop detail wanted jobs seen page outs = .ok res →
      ∀ j ∈ res.1, P j := by
  intro outs
  induction outs with
  | nil =>
    intro jobs seen page res hj h j hm
    simp only [search_jobs_js_loop] at h
    split at h <;> (obtain rfl := Except.ok.inj h; exact hj j hm)
  | cons o os ih =>
    intro jobs seen page res hj h j hm
    simp only [search_jobs_js_loop] at h
    split at h
    · cases o with
      | exn => obtain rfl := Except.ok.inj h; exact hj j hm
      | statusOther => obtain rfl := Except.ok.inj h; exact hj j hm
      | status429 =>
        cases hr : search_jobs_js_loop detail wanted jobs seen page os with
        | error e => rw [hr] at h; exact absurd h (by simp [Except.map])
        | ok r2 =>
          rw [hr] at h
          have hres : (r2.1, page :: r2.2) = res := by simpa [Except.map] using h
          subst hres
          exact ih jobs seen page r2 hj hr j hm
      | ok soup =>
        dsimp only at h
        by_cases hcards : (!truthy (extract_job_listings soup)) = true
        · rw [if_pos hcards] at h
          obtain rfl := Except.ok.inj h; exact hj j hm
        · rw [if_neg hcards] at h
          cases hit : pyIter (extract_job_listings soup) with
          | error e => rw [hit] at h; exact absurd h (by simp)
          | ok items =>
            rw [hit] at h
            dsimp only at h
            cases hr : search_jobs_js_loop detail wanted
                (process_cards_js detail wanted jobs seen items).1
                (process_cards_js detail wanted jobs seen items).2 (page + 1) os with
            | error e => rw [hr] at h; exact absurd h (by simp [Except.map])
            | ok r2 =>
              rw [hr] at h
              have hres : (r2.1, page :: r2.2) = res := by simpa [Except.map] using h
              subst hres
              exact ih _ _ (page + 1) r2
                (process_cards_js_inv detail wanted P hP items jobs seen hj) hr j hm
    · obtain rfl := Except.ok.inj h; exact hj j hm

/-- A string always starts with the prefix it was built from. -/
theorem strStarts_append_left (pre t : String) : strStarts (pre ++ t) pre = true := by
  have : (pre ++ t).toList = pre.toList ++ t.toList := by
    simp [String.toList]
  simp [strStarts, this, List.isPrefixOf_iff_prefix]

/-- Any record `glints_job_rest` builds carries the prefixed id it was
given. -/
theorem glints_job_rest_id (job : JVal) (kw : Option String) (jobId : JVal)
    (g : GlintsJob) (h : glints_job_rest job kw jobId = .ok g) :
    g.id = "glints_" ++ pyStr jobId := by
  unfold glints_job_rest at h
  simp only [bind, Except.bind, pure, Except.pure] at h
  iterate 25 (all_goals (try split at h))
  all_goals
    first
    | (obtain rfl := Except.ok.inj h; rfl)
    | exact absurd h (by simp)

/-- Any record accepted by `GlintsScraper._parse_job` has a
"glints_"-prefixed id. -/
theorem parse_job_g_prefixed (kw : Option String) (jd : JVal) (g : GlintsJob)
    (h : parse_job_g kw jd = some g) : strStarts g.id "glints_" = true := by
  unfold parse_job_g at h
  simp only [bind, Except.bind] at h
  cases hi : jvGetD jd "id" (.str "") with
  | error e => rw [hi] at h; exact absurd h (by simp)
  | ok jobId =>
    rw [hi] at h
    dsimp only at h
    cases hr : glints_job_rest jd kw jobId with
    | error e => rw [hr] at h; exact absurd h (by simp)
    | ok r =>
      rw [hr] at h
      obtain rfl : r = g := by simpa using h
      rw [glints_job_rest_id jd kw jobId r hr]
      exact strStarts_append_left "glints_" (pyStr jobId)

/-- Every record extracted from a Glints GraphQL response has a
"glints_"-prefixed id. -/
theorem extract_jobs_prefixed (data : JVal) (kw : Option String) (g : GlintsJob)
    (h : g ∈ extract_jobs_from_response data kw) :
    strStarts g.id "glints_" = true := by
  unfold extract_jobs_from_response at h
  split at h
  · exact absurd h (by simp)
  · obtain ⟨jd, _, hp⟩ := List.mem_filterMap.mp h
    exact parse_job_g_prefixed kw jd g hp

/-- Claim C1, counterexample: the LinkedIn scraper (scraper.py
`parse_job_card`, reached from its `search_jobs`) emits the raw native id
with no source prefix at all — here "4021", which carries no
source-prefix underscore tag — so ids of a crawl are not universally
source-prefixed and the cross-source non-collision argument fails. -/
theorem c1_id_prefix_counterexample :
    (search_jobs_li dnLI 25 [] [.ok [cardLI]]).1.map (fun j => j.id) = ["4021"] ∧
    strStarts "4021" "jobstreet_" = false ∧
    strStarts "4021" "glints_" = false ∧
    strStarts "4021" "linkedin_" = false ∧
    strIn "_" "4021" = false :=
  ⟨by rfl, by rfl, by rfl, by rfl, by rfl⟩

/-- Claim C1, amended: the JobStreet crawl (`search_jobs`) only returns
records whose id is "jobstreet_" plus a non-empty native id, and every
record of a Glints response extraction has a "glints_"-prefixed id; the
LinkedIn scraper however emits raw unprefixed native ids (see the
counterexample). -/
theorem c1_id_prefix_amended :
    (∀ (detail : JVal → Option String × Option String) (wanted : Nat)
        (existing : List String) (outs : List (FetchOutcome SoupJS))
        (res : List JobJS × List Nat),
      search_jobs_js detail wanted existing outs = .ok res →
      ∀ j ∈ res.1, ∃ s, s ≠ "" ∧ j.id = "jobstreet_" ++ s) ∧
    (∀ (data : JVal) (kw : Option String) (g : GlintsJob),
      g ∈ extract_jobs_from_response data kw →
      strStarts g.id "glints_" = true) := by
  constructor
  · intro detail wanted existing outs res h j hm
    exact search_jobs_js_loop_inv detail wanted
      (fun j => ∃ s, s ≠ "" ∧ j.id = "jobstreet_" ++ s)
      (fun c j hp => parse_job_card_js_prefixed detail c j hp)
      outs [] existing 1 res (by simp) h j hm
  · exact extract_jobs_prefixed

/-- Witness for C1 (amended): a one-page crawl whose only record is
`jobIdOnly`, whose id is "jobstreet_" ++ "1". -/
theorem c1_id_prefix_amended_witness :
    search_jobs_js dnJS 25 [] [.ok soupIdOnly] = .ok ([jobIdOnly], [1, 2]) ∧
    (∃ s, s ≠ "" ∧ jobIdOnly.id = "jobstreet_" ++ s) :=
  ⟨by rfl,
   c1_id_prefix_amended.1 dnJS 25 [] [.ok soupIdOnly] ([jobIdOnly], [1, 2])
     (by rfl) jobIdOnly (by simp)⟩

/-- Claim C6, counterexample: a Glints raw listing with no native id (the
empty dict) is NOT dropped by `_parse_job` — it is emitted with the
placeholder id "glints_" and title "Unknown Title", so a listing failing
required-field extraction is present in the crawl output. -/
theorem c6_missing_id_counterexample :
    (extract_jobs_from_response glintsNoIdData none).map
        (fun g => (g.id, g.title)) =
      [("glints_", JVal.str "Unknown Title")] := by rfl

/-- Claim C6, amended: the JobStreet `parse_job_card` does drop (returns
`None` for, without raising) any listing whose native id chain is empty,
and the HTML-card tier keeps only cards with a truthy title and id; but a
missing title alone is not dropped (JobStreet substitutes "N/A"), and
Glints `_parse_job` drops nothing for missing id/title, substituting
placeholders instead. -/
theorem c6_missing_id_amended :
    (∀ (detail : JVal → Option String × Option String) (jd : JVal),
      js_native_id jd = .ok "" → parse_job_card_js detail jd = none) ∧
    (parse_job_card_js dnJS (.obj []) = none) ∧
    ((parse_job_card_js dnJS idOnlyListing).map (fun j => j.title) =
      some (JVal.str "N/A")) ∧
    (∀ (s : SoupJS) (items : List JVal),
      pyIter (parse_html_cards s) = .ok items →
      ∀ v ∈ items, ∃ kvs, v = .obj kvs ∧
        truthy ((jvLookup kvs "title").getD .null) = true ∧
        truthy ((jvLookup kvs "id").getD .null) = true) ∧
    ((parse_job_g none (.obj [])).map (fun g => g.id) = some "glints_") := by
  refine ⟨?_, by rfl, by rfl, ?_, by rfl⟩
  · intro detail jd h
    unfold parse_job_card_js
    simp only [bind, Except.bind]
    rw [h]
    rfl
  · intro s items h v hv
    unfold parse_html_cards at h
    simp only [pyIter] at h
    obtain rfl := Except.ok.inj h
    obtain ⟨hmem, hpred⟩ := List.mem_filter.mp hv
    cases v with
    | obj kvs =>
      have hp2 : truthy ((jvLookup kvs "title").getD JVal.null) = true ∧
          truthy ((jvLookup kvs "id").getD JVal.null) = true := by
        simpa using hpred
      exact ⟨kvs, rfl, hp2.1, hp2.2⟩
    | null => simp at hpred
    | bool b => simp at hpred
    | num n => simp at hpred
    | str s2 => simp at hpred
    | arr xs => simp at hpred

/-- Witness for C6 (amended): the empty dict has an empty native id and is
dropped by the JobStreet parser. -/
theorem c6_missing_id_amended_witness :
    js_native_id (.obj []) = .ok "" ∧ parse_job_card_js dnJS (.obj []) = none :=
  ⟨by rfl, c6_missing_id_amended.1 dnJS (.obj []) (by rfl)⟩

/-- Claim C3, counterexample: four consecutive JobStreet pages that each
contribute zero new jobs (every listing a duplicate of an already-stored
id) do NOT stop the crawl: the loop keeps fetching — pages 1 to 4 and then
a fifth request — because `search_jobs` (jobstreet, and identically the
LinkedIn loop) has no consecutive-zero-new-pages rule; only an entirely
empty extraction breaks. -/
theorem c3_early_stop_counterexample :
    search_jobs_js dnJS 25 ["jobstreet_7"]
        [.ok soupDup, .ok soupDup, .ok soupDup, .ok soupDup, .exn] =
      .ok ([], [1, 2, 3, 4, 5]) := by
  rfl

/-- Claim C3, amended: the three-consecutive-rounds-without-new-jobs early
stop exists only in `GlintsScraper.scrape` (per scroll round: three
consecutive rounds with an unchanged total halt after exactly the third);
the jobstreet/LinkedIn page loops instead stop on the first page whose
extraction is empty, and duplicate-only pages do not stop them (see the
counterexample). -/
theorem c3_early_stop_amended :
    (∀ (budget c : Nat) (rest : List Nat), 3 ≤ budget →
      glints_scroll_loop budget (c :: c :: c :: rest) c 0 = 3) ∧
    (∀ (detail : JVal → Option String × Option String) (wanted : Nat)
        (jobs : List JobJS) (seen : List String) (page : Nat)
        (rest : List (FetchOutcome SoupJS)) (s : SoupJS),
      jobs.length < wanted → page ≤ 20 →
      truthy (extract_job_listings s) = false →
      search_jobs_js_loop detail wanted jobs seen page (.ok s :: rest) =
        .ok (jobs, [page])) := by
  constructor
  · intro budget c rest hb
    obtain ⟨b, rfl⟩ : ∃ b, budget = b + 3 := ⟨budget - 3, by omega⟩
    simp [glints_scroll_loop]
  · intro detail wanted jobs seen page rest s h1 h2 h3
    simp [search_jobs_js_loop, h1, h2, h3]

/-- Witness for C3 (amended): a concrete 10-round Glints budget stopping
after 3 stagnant rounds, and a one-page jobstreet crawl stopped by an
empty page. -/
theorem c3_early_stop_amended_witness :
    (3 ≤ 10 ∧ glints_scroll_loop 10 [4, 4, 4, 9] 4 0 = 3) ∧
    (([] : List JobJS).length < 25 ∧ (1 : Nat) ≤ 20 ∧
      truthy (extract_job_listings soupEmpty) = false ∧
      search_jobs_js_loop dnJS 25 [] [] 1 [.ok soupEmpty] = .ok ([], [1])) :=
  ⟨⟨by decide, c3_early_stop_amended.1 10 4 [9] (by decide)⟩,
   ⟨by decide, by decide, by rfl,
    c3_early_stop_amended.2 dnJS 25 [] [] 1 [] soupEmpty (by decide) (by decide)
      (by rfl)⟩⟩

/-- Claim C4, counterexample: a page body whose structured payload nests a
truthy non-iterable value (number 5) where the listings belong makes
`search_jobs` (jobstreet) raise an uncaught TypeError at the
`for card in job_cards` loop — the crawl does not return a partial result
list for this page body. -/
theorem c4_error_handling_counterexample :
    search_jobs_js dnJS 25 [] [.ok soupBad] = .error () := by rfl

/-- Jobstreet loop: a transport failure or non-200/non-429 status at any
point ends the crawl exactly as if the outcome oracle stopped there. -/
theorem search_jobs_js_truncates (detail : JVal → Option String × Option String)
    (wanted : Nat) :
    ∀ (goods : List (FetchOutcome SoupJS)) (bad : FetchOutcome SoupJS),
      (bad = .exn ∨ bad = .statusOther) →
      ∀ (rest : List (FetchOutcome SoupJS)) (jobs : List JobJS)
        (seen : List String) (page : Nat),
      search_jobs_js_loop detail wanted jobs seen page (goods ++ bad :: rest) =
        search_jobs_js_loop detail wanted jobs seen page goods := by
  intro goods bad hbad
  induction goods with
  | nil =>
    intro rest jobs seen page
    simp only [List.nil_append, search_jobs_js_loop]
    cases hc : (decide (jobs.length < wanted) && decide (page ≤ 20)) with
    | false => simp [hc]
    | true => rcases hbad with rfl | rfl <;> simp [hc]
  | cons g gs ih =>
    intro rest jobs seen page
    simp only [List.cons_append, search_jobs_js_loop]
    cases hc : (decide (jobs.length < wanted) && decide (page ≤ 20)) with
    | false => simp [hc]
    | true =>
      simp only [hc, if_true]
      cases g with
      | exn => rfl
      | statusOther => rfl
      | status429 =>
        dsimp only [List.append_eq]
        rw [ih rest jobs seen page]
      | ok soup =>
        dsimp only [List.append_eq]
        by_cases h1 : (!truthy (extract_job_listings soup)) = true
        · rw [if_pos h1, if_pos h1]
        · rw [if_neg h1, if_neg h1]
          cases hit : pyIter (extract_job_listings soup) with
          | error e => rfl
          | ok items =>
            dsimp only
            rw [ih rest _ _ (page + 1)]

/-- LinkedIn loop: same truncation property (this loop has no
uncaught-exception path at all, its card query always yields a list). -/
theorem search_jobs_li_truncates (detail : String → Option String × Option String)
    (wanted : Nat) :
    ∀ (goods : List (FetchOutcome (List CardLI))) (bad : FetchOutcome (List CardLI)),
      (bad = .exn ∨ bad = .statusOther) →
      ∀ (rest : List (FetchOutcome (List CardLI))) (jobs : List JobLI)
        (seen : List String) (start : Nat),
      search_jobs_li_loop detail wanted jobs seen start (goods ++ bad :: rest) =
        search_jobs_li_loop detail wanted jobs seen start goods := by
  intro goods bad hbad
  induction goods with
  | nil =>
    intro rest jobs seen start
    simp only [List.nil_append, search_jobs_li_loop]
    cases hc : (decide (jobs.length < wanted) && decide (start < 1000)) with
    | false => simp [hc]
    | true => rcases hbad with rfl | rfl <;> simp [hc]
  | cons g gs ih =>
    intro rest jobs seen start
    simp only [List.cons_append, search_jobs_li_loop]
    cases hc : (decide (jobs.length < wanted) && decide (start < 1000)) with
    | false => simp [hc]
    | true =>
      simp only [hc, if_true]
      cases g with
      | exn => rfl
      | statusOther => rfl
      | status429 =>
        dsimp only [List.append_eq]
        rw [ih rest jobs seen start]
      | ok cards =>
        dsimp only [List.append_eq]
        by_cases h1 : cards.isEmpty = true
        · rw [if_pos h1, if_pos h1]
        · rw [if_neg h1, if_neg h1]
          rw [ih rest _ _ (start + cards.length)]

/-- Jobstreet loop: when every successfully fetched page extracts either
nothing or a genuine list, the loop returns normally. -/
theorem search_jobs_js_ok_of_iterable (detail : JVal → Option String × Option String)
    (wanted : Nat) :
    ∀ (outs : List (FetchOutcome SoupJS)),
      (∀ s, FetchOutcome.ok s ∈ outs →
        truthy (extract_job_listings s) = false ∨
        ∃ items, pyIter (extract_job_listings s) = .ok items) →
      ∀ (jobs : List JobJS) (seen : List String) (page : Nat),
      ∃ res, search_jobs_js_loop detail wanted jobs seen page outs = .ok res := by
  intro outs
  induction outs with
  | nil =>
    intro _ jobs seen page
    simp only [search_jobs_js_loop]
    split <;> exact ⟨_, rfl⟩
  | cons o os ih =>
    intro hok jobs seen page
    have hok2 : ∀ s, FetchOutcome.ok s ∈ os →
        truthy (extract_job_listings s) = false ∨
        ∃ items, pyIter (extract_job_listings s) = .ok items :=
      fun s hs => hok s (List.mem_cons_of_mem _ hs)
    simp only [search_jobs_js_loop]
    cases hc : (decide (jobs.length < wanted) && decide (page ≤ 20)) with
    | false => simp only [hc, Bool.false_eq_true, if_false]; exact ⟨_, rfl⟩
    | true =>
      simp only [hc, if_true]
      cases o with
      | exn => exact ⟨_, rfl⟩
      | statusOther => exact ⟨_, rfl⟩
      | status429 =>
        obtain ⟨res, hres⟩ := ih hok2 jobs seen page
        exact ⟨(res.1, page :: res.2), by rw [hres]; rfl⟩
      | ok soup =>
        dsimp only
        by_cases h1 : (!truthy (extract_job_listings soup)) = true
        · rw [if_pos h1]; exact ⟨_, rfl⟩
        · rw [if_neg h1]
          rcases hok soup (List.mem_cons_self _ _) with h2 | ⟨items, h2⟩
          · exact absurd (by rw [h2]; rfl) h1
          · rw [h2]
            dsimp only
            obtain ⟨res, hres⟩ := ih hok2
              (process_cards_js detail wanted jobs seen items).1
              (process_cards_js detail wanted jobs seen items).2 (page + 1)
            exact ⟨(res.1, page :: res.2), by rw [hres]; rfl⟩

/-- Claim C4, amended: a transport exception or non-200/non-429 status on
any page ends the crawl with exactly the partial results of the preceding
pages, for both the jobstreet and LinkedIn sync loops (and the LinkedIn
loop is total by construction); the jobstreet loop also returns normally
on every oracle whose successful pages extract a falsy value or a real
list — the sole exception escape is a truthy non-iterable structured
payload (see the counterexample). -/
theorem c4_error_handling_amended :
    (∀ (detail : JVal → Option String × Option String) (wanted : Nat)
        (goods rest : List (FetchOutcome SoupJS)) (bad : FetchOutcome SoupJS)
        (jobs : List JobJS) (seen : List String) (page : Nat),
      (bad = .exn ∨ bad = .statusOther) →
      search_jobs_js_loop detail wanted jobs seen page (goods ++ bad :: rest) =
        search_jobs_js_loop detail wanted jobs seen page goods) ∧
    (∀ (detail : String → Option String × Option String) (wanted : Nat)
        (goods rest : List (FetchOutcome (List CardLI)))
        (bad : FetchOutcome (List CardLI))
        (jobs : List JobLI) (seen : List String) (start : Nat),
      (bad = .exn ∨ bad = .statusOther) →
      search_jobs_li_loop detail wanted jobs seen start (goods ++ bad :: rest) =
        search_jobs_li_loop detail wanted jobs seen start goods) ∧
    (∀ (detail : JVal → Option String × Option String) (wanted : Nat)
        (outs : List (FetchOutcome SoupJS)),
      (∀ s, FetchOutcome.ok s ∈ outs →
        truthy (extract_job_listings s) = false ∨
        ∃ items, pyIter (extract_job_listings s) = .ok items) →
      ∀ existing, ∃ res, search_jobs_js detail wanted existing outs = .ok res) := by
  refine ⟨?_, ?_, ?_⟩
  · intro detail wanted goods rest bad jobs seen page hbad
    exact search_jobs_js_truncates detail wanted goods bad hbad rest jobs seen page
  · intro detail wanted goods rest bad jobs seen start hbad
    exact search_jobs_li_truncates detail wanted goods bad hbad rest jobs seen start
  · intro detail wanted outs hok existing
    exact search_jobs_js_ok_of_iterable detail wanted outs hok [] existing 1

/-- Witness for C4 (amended): an immediate transport failure truncates a
fresh crawl to the empty oracle, and a one-good-page oracle returns
normally. -/
theorem c4_error_handling_amended_witness :
    (search_jobs_js_loop dnJS 25 [] [] 1 [FetchOutcome.exn] =
      search_jobs_js_loop dnJS 25 [] [] 1 []) ∧
    (∃ res, search_jobs_js dnJS 25 [] [.ok soupIdOnly] = .ok res) :=
  ⟨c4_error_handling_amended.1 dnJS 25 [] [] .exn [] [] 1 (Or.inl rfl),
   c4_error_handling_amended.2.2 dnJS 25 [.ok soupIdOnly]
     (fun s hs => by
       rw [FetchOutcome.ok.inj (List.mem_singleton.mp hs)]
       exact Or.inr ⟨[idOnlyListing], by rfl⟩) []⟩

/-- With no send failures the manager delivers every message. -/
theorem send_seq_all_delivered (ms : List WsMsg) : send_seq ms true [] = ms := by
  induction ms with
  | nil => rfl
  | cons m ms ih => simp [send_seq, ih]

/-- Claim C9, counterexample: when the client disconnects mid-crawl (the
second `send_json` raises), the handler does NOT abort the crawl and does
NOT propagate a terminal Error event: the crawl runs to completion (the
job list is still produced and saved), every later send — including the
terminal Completed — is silently dropped by `send_progress`, and the
delivered stream ends on the non-terminal Started message with no Error
event anywhere. -/
theorem c9_terminal_event_counterexample :
    websocket_scrape "python" .ok [.fetching_page 1 0, .parsing 1 1]
        [jobLI4021] 1 true "db" [false, true] =
      ([WsMsg.started "Searching for python..."], some [jobLI4021]) := by
  rfl

/-- Claim C9, amended: the crawl result of the WebSocket handler is
independent of send failures and database errors (a progress-sink failure
is swallowed and never aborts the crawl); when every send succeeds the
delivered stream ends with the terminal Completed event on success and
with a terminal Error event when the handler body fails; a
WebSocketDisconnect at receive time ends the handler with no event at
all — after a mid-crawl disconnect no terminal event is delivered (see
the counterexample). -/
theorem c9_terminal_event_amended :
    (∀ (kw : String) (evs : List Event) (jobs : List JobLI) (n : Nat)
        (db : Bool) (dbe : String) (sched : List Bool),
      (websocket_scrape kw .ok evs jobs n db dbe sched).2 = some jobs) ∧
    (∀ (kw : String) (evs : List Event) (jobs : List JobLI) (n : Nat)
        (dbe : String),
      ((websocket_scrape kw .ok evs jobs n true dbe []).1).getLast? =
        some (.completed jobs.length n)) ∧
    (∀ (kw : String) (evs : List Event) (jobs : List JobLI) (n : Nat)
        (dbe : String),
      ((websocket_scrape kw .ok evs jobs n false dbe []).1).getLast? =
        some (.error dbe)) ∧
    (websocket_scrape "kw" .disconnect [] [] 0 true "db" [] = ([], none)) := by
  refine ⟨?_, ?_, ?_, rfl⟩
  · intro kw evs jobs n db dbe sched
    rfl
  · intro kw evs jobs n dbe
    show (send_seq (WsMsg.started ("Searching for " ++ kw ++ "...") ::
      evs.map WsMsg.progress ++ [WsMsg.completed jobs.length n]) true []).getLast? = _
    rw [send_seq_all_delivered]
    show ((WsMsg.started ("Searching for " ++ kw ++ "...") ::
      evs.map WsMsg.progress) ++ [WsMsg.completed jobs.length n]).getLast? = _
    rw [List.getLast?_concat]
  · intro kw evs jobs n dbe
    show (send_seq (WsMsg.started ("Searching for " ++ kw ++ "...") ::
      evs.map WsMsg.progress ++ [WsMsg.error dbe]) true []).getLast? = _
    rw [send_seq_all_delivered]
    show ((WsMsg.started ("Searching for " ++ kw ++ "...") ::
      evs.map WsMsg.progress) ++ [WsMsg.error dbe]).getLast? = _
    rw [List.getLast?_concat]
